import Mathlib

/-!
# Verification of the crypto-chart-ng streaming-aggregation core

Shallow embedding of the repository's wire codec
(`src/utils/binary-deserializer.ts`), the candle merge / prune engine and
facade initialization (`CryptoChartSDK` in the SDK sources), and the
WebSocket reconnect / subscription-ack handling (`WebSocketService`).

Modelling conventions:
* Binary buffers are `List Nat`, one entry per byte (values < 256 for real
  buffers); multi-byte reads/writes are little-endian, as in the `DataView`
  calls of the source.
* JavaScript `number` fields are modelled at two levels.  At the codec
  level a float64 is represented by its 64-bit pattern (a `Nat < 2^64`):
  `setFloat64`/`getFloat64` transport bit patterns unchanged, so the codec
  is exact on patterns.  Where the source inspects the *value* of a float
  (the trade price computation), the pattern is decoded by the exact
  IEEE-754 valuation `f64val` into `F64` (finite rational / signed zero /
  infinities / NaN) and JavaScript division is modelled by `jsDiv`
  (division by zero yields an infinity or NaN, never an exception; finite
  nonzero quotients are kept exact rationals rather than rounded).
* The aggregation logic (`handleRealTimeTrade`, `fetchLatestCandle`)
  manipulates candle fields only through comparisons, `Math.max/min` and
  sums, so its candles carry `ℚ` fields and `Int` timestamps.
* Stateful methods become pure functions from their pre-state (and the
  outcome of any awaited collaborator) to their post-state together with
  the list of callback notifications they emit.
-/

namespace CryptoChart

/-! ## Byte-level primitives (DataView semantics) -/

/-- Little-endian value of a byte list: `getUintN` semantics over the bytes. -/
def leNat : List Nat → Nat
  | [] => 0
  | b :: bs => b + 256 * leNat bs

/-- `setUint32(offset, n, true)`: the 4 little-endian bytes of `n mod 2^32`. -/
def u32le (n : Nat) : List Nat :=
  [n % 256, n / 2 ^ 8 % 256, n / 2 ^ 16 % 256, n / 2 ^ 24 % 256]

/-- `setFloat64`/`setBigUint64`-style write: 8 little-endian bytes of `n mod 2^64`. -/
def u64le (n : Nat) : List Nat :=
  [n % 256, n / 2 ^ 8 % 256, n / 2 ^ 16 % 256, n / 2 ^ 24 % 256,
   n / 2 ^ 32 % 256, n / 2 ^ 40 % 256, n / 2 ^ 48 % 256, n / 2 ^ 56 % 256]

/-- `setBigInt64(offset, z, true)`: wraps `z` modulo `2^64` (two's complement). -/
def i64le (z : Int) : List Nat :=
  u64le (z % (2 ^ 64 : Int)).toNat

/-- `getBigInt64(offset, true)`: two's-complement read of 8 little-endian bytes. -/
def leInt64 (bs : List Nat) : Int :=
  let u := leNat bs
  if u < 2 ^ 63 then (u : Int) else (u : Int) - 2 ^ 64

/-! ## IEEE-754 float64 values

`f64val` is the exact valuation of a 64-bit pattern; `jsDiv` is
JavaScript's `/` on such values (IEEE-754 divide), with finite nonzero
quotients kept as exact rationals. -/

/-- A JavaScript `number` value: finite rational, negative zero, the two
infinities, or NaN (all NaN patterns are one JS value).  `fin 0` is `+0`. -/
inductive F64 where
  | fin (q : ℚ)
  | negZero
  | inf
  | negInf
  | nan
  deriving DecidableEq, Repr

/-- Exact IEEE-754 binary64 valuation of a bit pattern (sign bit 63,
11-bit exponent, 52-bit mantissa). -/
def f64val (b : Nat) : F64 :=
  let b : ℕ := b % 2 ^ 64
  let s : ℕ := b / 2 ^ 63
  let e : ℕ := b / 2 ^ 52 % 2 ^ 11
  let m : ℕ := b % 2 ^ 52
  if e = 2047 then
    if m = 0 then (if s = 1 then .negInf else .inf) else .nan
  else if e = 0 then
    if m = 0 then (if s = 1 then .negZero else .fin 0)
    else .fin ((if s = 1 then (-1 : ℚ) else 1) * (m : ℚ) * ((2 : ℚ) ^ (1074 : ℕ))⁻¹)
  else
    .fin ((if s = 1 then (-1 : ℚ) else 1) * ((2 : ℚ) ^ (52 : ℕ) + (m : ℚ)) *
      (2 : ℚ) ^ ((e : ℤ) - 1075))

/-- JavaScript division on `number` values (IEEE-754 divide).  Division by
a zero yields an infinity or NaN, never an exception; `0/0`, `inf/inf` and
anything involving NaN yield NaN.  Finite nonzero quotients are exact. -/
def jsDiv : F64 → F64 → F64
  | .nan, _ => .nan
  | _, .nan => .nan
  | .inf, .inf => .nan
  | .inf, .negInf => .nan
  | .negInf, .inf => .nan
  | .negInf, .negInf => .nan
  | .inf, .fin b => if b < 0 then .negInf else .inf
  | .inf, .negZero => .negInf
  | .negInf, .fin b => if b < 0 then .inf else .negInf
  | .negInf, .negZero => .inf
  | .fin a, .inf => if a < 0 then .negZero else .fin 0
  | .fin a, .negInf => if a < 0 then .fin 0 else .negZero
  | .negZero, .inf => .negZero
  | .negZero, .negInf => .fin 0
  | .negZero, .negZero => .nan
  | .negZero, .fin b => if b = 0 then .nan else if b < 0 then .fin 0 else .negZero
  | .fin a, .negZero => if a = 0 then .nan else if a < 0 then .inf else .negInf
  | .fin a, .fin b =>
    if b = 0 then (if a = 0 then .nan else if a < 0 then .negInf else .inf)
    else if a = 0 ∧ b < 0 then .negZero else .fin (a / b)

/-- `true` iff the value is a zero (`+0` or `-0`). -/
def F64.isZero : F64 → Bool
  | .fin q => q = 0
  | .negZero => true
  | _ => false

/-- `true` iff the value is an infinity or NaN. -/
def F64.nonFinite : F64 → Bool
  | .inf => true
  | .negInf => true
  | .nan => true
  | _ => false

/-! ## WireCodec — `src/utils/binary-deserializer.ts`

Candle fields other than the timestamp are float64s that the codec never
inspects, so they are carried as bit patterns. -/

/-- The `Candle` interface at wire level: `Timestamp` as the int64 it is
stored as, the six float64 fields as their 64-bit patterns. -/
structure WireCandle where
  Timestamp : Int
  OpenPrice : Nat
  ClosePrice : Nat
  HighPrice : Nat
  LowPrice : Nat
  VolumeIn : Nat
  VolumeOut : Nat
  deriving DecidableEq, Repr

/-- The `RealTimeTrade` record produced by `deserializeRealTimeTradeData`:
`TradeTime` plus the two transmitted amounts and the derived `Price`,
as JS values. -/
structure RealTimeTrade where
  TradeTime : Int
  USD : F64
  Amount : F64
  Price : F64
  deriving DecidableEq, Repr

/-- One 64-byte candle record read field-by-field at offsets 0,8,…,48
(int64 timestamp, then open, close, high, low, volumeIn, volumeOut). -/
def readWireCandle (bs : List Nat) : WireCandle :=
  let t := leInt64 (bs.take 8)
  let r1 := bs.drop 8
  let o := leNat (r1.take 8)
  let r2 := r1.drop 8
  let c := leNat (r2.take 8)
  let r3 := r2.drop 8
  let h := leNat (r3.take 8)
  let r4 := r3.drop 8
  let l := leNat (r4.take 8)
  let r5 := r4.drop 8
  let vi := leNat (r5.take 8)
  let r6 := r5.drop 8
  let vo := leNat (r6.take 8)
  { Timestamp := t, OpenPrice := o, ClosePrice := c, HighPrice := h,
    LowPrice := l, VolumeIn := vi, VolumeOut := vo }

/-- The read loop of `deserializeCandleData`: `count` consecutive records.
The source's `offset` advances 8 bytes per field, 7 fields per candle, so
consecutive records sit at a 56-byte stride (even though the length check
and the doc comment of the source speak of 64 bytes per candle). -/
def readCandles : Nat → List Nat → List WireCandle
  | 0, _ => []
  | n + 1, bs => readWireCandle bs :: readCandles n (bs.drop 56)

/-- `deserializeCandleData` from `src/utils/binary-deserializer.ts`:
reads a 4-byte little-endian count (a `DataView` read off the end of the
buffer raises a `RangeError`), checks `byteLength = 4 + count*64` and
throws `Invalid data size` otherwise, then parses `count` 64-byte candle
records. -/
def deserializeCandleData (data : List Nat) : Except String (List WireCandle) :=
  if data.length < 4 then
    .error "RangeError: Offset is outside the bounds of the DataView"
  else
    let count := leNat (data.take 4)
    if data.length ≠ 4 + count * 64 then
      .error "Invalid data size"
    else
      .ok (readCandles count (data.drop 4))

/-- `deserializeRealTimeTradeData` from `src/utils/binary-deserializer.ts`:
checks `byteLength = 24`, reads int64 `TradeTime`, float64 `USD` and
`Amount`, and derives `Price = USD / Amount` by JS division. -/
def deserializeRealTimeTradeData (data : List Nat) : Except String RealTimeTrade :=
  if data.length ≠ 24 then
    .error "Invalid RealTimeTrade data size"
  else
    let tradeTime := leInt64 (data.take 8)
    let r1 := data.drop 8
    let usd := f64val (leNat (r1.take 8))
    let amount := f64val (leNat ((r1.drop 8).take 8))
    .ok { TradeTime := tradeTime, USD := usd, Amount := amount,
          Price := jsDiv usd amount }

/-- One candle encoded by `createMockBinaryData`'s loop body: int64
timestamp then the six float64 fields, 56 bytes written. -/
def encodeWireCandle (c : WireCandle) : List Nat :=
  i64le c.Timestamp ++ u64le c.OpenPrice ++ u64le c.ClosePrice ++
    u64le c.HighPrice ++ u64le c.LowPrice ++ u64le c.VolumeIn ++ u64le c.VolumeOut

/-- `createMockBinaryData` from `src/utils/binary-deserializer.ts`:
allocates a zero-initialized `ArrayBuffer(4 + 64*count)`, writes the
4-byte little-endian count, then writes each candle's 7 fields at a
sequential (56-byte) stride — so the final `8*count` bytes of the buffer
stay zero. -/
def createMockBinaryData (candles : List WireCandle) : List Nat :=
  u32le candles.length ++ (candles.map encodeWireCandle).flatten ++
    List.replicate (8 * candles.length) 0

/-- Modelled from the spec: the source has no trade encoder (only the
candle encoder `createMockBinaryData` exists); §4.1 fixes the trade wire
record as exactly 24 bytes — int64 tradeTime, float64 quoteAmount,
float64 baseAmount, price never transmitted.  This encoder writes that
record from the transmitted fields (amounts as their bit patterns). -/
def createMockTradeData (tradeTime : Int) (usdBits amountBits : Nat) : List Nat :=
  i64le tradeTime ++ u64le usdBits ++ u64le amountBits

/-- A wire candle whose fields fit their wire slots: timestamp in int64
range, float patterns in 64 bits. -/
def wfWireCandle (c : WireCandle) : Prop :=
  -(2 ^ 63) ≤ c.Timestamp ∧ c.Timestamp < 2 ^ 63 ∧
    c.OpenPrice < 2 ^ 64 ∧ c.ClosePrice < 2 ^ 64 ∧ c.HighPrice < 2 ^ 64 ∧
    c.LowPrice < 2 ^ 64 ∧ c.VolumeIn < 2 ^ 64 ∧ c.VolumeOut < 2 ^ 64

instance (c : WireCandle) : Decidable (wfWireCandle c) := by
  unfold wfWireCandle; infer_instance

/-- `true` on the `throw` outcomes of a decoder. -/
def isErr {ε α : Type} : Except ε α → Bool
  | .error _ => true
  | .ok _ => false

/-! ## CandleStore / AggregatorFacade — `CryptoChartSDK`

The aggregation logic manipulates candle fields only through
comparisons, `Math.max`/`Math.min` and sums, so here prices and volumes
are `ℚ` and timestamps `Int` (integer seconds per the data model). -/

/-- The `Candle` interface as seen by the aggregation logic. -/
structure Candle where
  OpenPrice : ℚ
  ClosePrice : ℚ
  HighPrice : ℚ
  LowPrice : ℚ
  VolumeIn : ℚ
  VolumeOut : ℚ
  Timestamp : Int
  deriving DecidableEq, Repr

instance : Inhabited Candle :=
  ⟨{ OpenPrice := 0, ClosePrice := 0, HighPrice := 0, LowPrice := 0,
     VolumeIn := 0, VolumeOut := 0, Timestamp := 0 }⟩

/-- The `RealTimeTrade` record as consumed by `handleRealTimeTrade`
(real-valued view of its float64 fields). -/
structure RealTimeTradeQ where
  TradeTime : Int
  USD : ℚ
  Amount : ℚ
  Price : ℚ
  deriving DecidableEq, Repr

/-- `CryptoChartSDK.handleRealTimeTrade`: the candle-merge step.  Empty
series: no candle is created.  Otherwise `bucket = floor(TradeTime/60)*60`
and `diff = bucket - last.Timestamp`; `0 ≤ diff ≤ 120` folds the trade
into the last candle in place; `diff < 0` drops candles older than
`bucket - 3600`; `diff > 120` ignores the trade. -/
def handleRealTimeTrade (candles : List Candle) (trade : RealTimeTradeQ) :
    List Candle :=
  match candles.getLast? with
  | none => candles
  | some latestCandle =>
    let tradeMinuteTimestamp : Int := trade.TradeTime.fdiv 60 * 60
    let timeDiff := tradeMinuteTimestamp - latestCandle.Timestamp
    if 0 ≤ timeDiff ∧ timeDiff ≤ 120 then
      candles.dropLast ++
        [{ latestCandle with
            ClosePrice := trade.Price,
            HighPrice := max latestCandle.HighPrice trade.Price,
            LowPrice := min latestCandle.LowPrice trade.Price,
            VolumeIn := latestCandle.VolumeIn + trade.USD,
            VolumeOut := latestCandle.VolumeOut + trade.Amount }]
    else if timeDiff < 0 then
      candles.filter (fun c => decide (tradeMinuteTimestamp - 3600 ≤ c.Timestamp))
    else
      candles

/-- The upsert step of `CryptoChartSDK.fetchLatestCandle`: replace the
candle with the same timestamp if one exists, otherwise append and
re-sort ascending by timestamp. -/
def upsertCandle (candles : List Candle) (newCandle : Candle) : List Candle :=
  match candles.findIdx? (fun c => decide (c.Timestamp = newCandle.Timestamp)) with
  | some i => candles.set i newCandle
  | none =>
    (candles ++ [newCandle]).mergeSort (fun a b => decide (a.Timestamp ≤ b.Timestamp))

/-- The max-candles prune of `fetchLatestCandle`: keep the latest
`effectiveMax` entries (`slice(-maxCandles)`) when over the limit. -/
def enforceMaxCandles (candles : List Candle) (effectiveMax : Nat) : List Candle :=
  if effectiveMax < candles.length then
    candles.drop (candles.length - effectiveMax)
  else candles

/-- `CryptoChartSDK.fetchLatestCandle` after a candle arrived from the
poll, as a function of the pre-state, the fetched candle, the configured
`maxCandles` (`0` standing for the absent/falsy config defaulted by
`|| 1000`) and the current time in seconds: upsert, then prune to
`maxCandles` newest, then drop entries older than 24 hours. -/
def fetchLatestCandle (candles : List Candle) (newCandle : Candle)
    (maxCandles : Nat) (now : Int) : List Candle :=
  (enforceMaxCandles (upsertCandle candles newCandle)
      (if maxCandles = 0 then 1000 else maxCandles)).filter
    (fun c => decide (now - 86400 ≤ c.Timestamp))

/-! ## StreamingConnection — `WebSocketService` -/

/-- The reconnect-relevant fields of `WebSocketService`. -/
structure WSReconnectState where
  reconnectAttempts : Nat
  reconnectDelay : Nat
  maxReconnectAttempts : Nat
  deriving DecidableEq, Repr

/-- What one `attemptReconnect` call does besides mutating the state. -/
inductive ReconnectAction where
  | scheduleRetry (delay : Nat)
  | reportError (msg : String)
  deriving DecidableEq, Repr

/-- `true` on the fatal-connectivity error report. -/
def isReportError : ReconnectAction → Bool
  | .reportError _ => true
  | _ => false

/-- `WebSocketService.attemptReconnect`: while
`reconnectAttempts < maxReconnectAttempts`, increment the counter,
schedule a retry after the current delay and double the delay (capped at
30000 ms); otherwise report the fatal error and schedule nothing. -/
def attemptReconnect (s : WSReconnectState) : WSReconnectState × ReconnectAction :=
  if s.reconnectAttempts < s.maxReconnectAttempts then
    ({ s with reconnectAttempts := s.reconnectAttempts + 1,
              reconnectDelay := min (s.reconnectDelay * 2) 30000 },
     .scheduleRetry s.reconnectDelay)
  else
    (s, .reportError "Failed to reconnect after maximum attempts")

/-- The actions produced by `n` consecutive connection failures: each
failure fires `onclose`, which calls `attemptReconnect` once; a further
failure can only occur if the previous call scheduled a retry. -/
def reconnectRun : Nat → WSReconnectState → List ReconnectAction
  | 0, _ => []
  | n + 1, s =>
    let p := attemptReconnect s
    p.2 :: reconnectRun n p.1

/-- A freshly constructed `WebSocketService` with the given
`maxReconnectAttempts` and initial `reconnectDelay`. -/
def freshWSState (maxAttempts initialDelay : Nat) : WSReconnectState :=
  { reconnectAttempts := 0, reconnectDelay := initialDelay,
    maxReconnectAttempts := maxAttempts }

/-- The subscription-handshake fields of `WebSocketService`. -/
structure WSSubscriptionState where
  subscribeId : Option String
  isSubscribed : Bool
  deriving DecidableEq, Repr

/-- The `status` field of a structured acknowledgement. -/
inductive AckStatus where
  | success
  | error
  deriving DecidableEq, Repr

/-- An inbound text frame after `handleTextMessage`'s two-stage parse
(structured JSON first, then the legacy plain-text fallback).
`jsonSubscribed` carries the optional `status` field present in the
`SubscribeResponse` wire type. -/
inductive TextMessage where
  | jsonSubscribed (subscribeId : String) (status : Option AckStatus)
  | jsonUnsubscribed (status : AckStatus)
  | jsonOther
  | legacySubscribeId (subscribeId : String)
  | legacyUnsubscribed
  | otherText
  deriving DecidableEq, Repr

/-- A callback fired by `handleTextMessage` (`onSubscriptionCallback`,
with the id, or `""` after an unsubscribe). -/
inductive SubNotification where
  | subscriptionCallback (subscribeId : String)
  deriving DecidableEq, Repr

/-- `WebSocketService.handleTextMessage`: a structured subscribe ack with
a truthy (non-empty) `subscribe_id` stores the id and sets the subscribed
flag — the `status` field is never inspected; a structured unsubscribe
ack with `status:"success"` clears both; the legacy plain-text forms do
the same; anything else is logged and dropped. -/
def handleTextMessage (s : WSSubscriptionState) (m : TextMessage) :
    WSSubscriptionState × List SubNotification :=
  match m with
  | .jsonSubscribed sid _status =>
    if sid ≠ "" then
      ({ subscribeId := some sid, isSubscribed := true },
       [.subscriptionCallback sid])
    else (s, [])
  | .jsonUnsubscribed status =>
    if status = .success then
      ({ subscribeId := none, isSubscribed := false },
       [.subscriptionCallback ""])
    else (s, [])
  | .legacySubscribeId sid =>
    ({ subscribeId := some sid, isSubscribed := true },
     [.subscriptionCallback sid])
  | .legacyUnsubscribed =>
    ({ subscribeId := none, isSubscribed := false },
     [.subscriptionCallback ""])
  | .jsonOther => (s, [])
  | .otherText => (s, [])

/-- Outcome of the HTTP request awaited inside
`ApiService.fetchHistoryCandles`. -/
inductive FetchOutcome where
  | success (cs : List Candle)
  | failure (msg : String)
  deriving DecidableEq, Repr

/-- `ApiService.fetchHistoryCandles`: wraps the HTTP call and decode in a
try/catch that logs and returns `[]` on any failure — it never throws. -/
def fetchHistoryCandles : FetchOutcome → Except String (List Candle)
  | .success cs => .ok cs
  | .failure _ => .ok []

/-- The facade state relevant to initialization. -/
structure SDKState where
  candles : List Candle
  error : Option String
  deriving DecidableEq, Repr

/-- `CryptoChartSDK.initialize` restricted to the candle series and error
state: it clears `candles` and `error` up front (before any await), then
stores whatever `fetchHistoryCandles` resolves to; only the catch branch
(reachable only if that call throws, which it never does) records and
notifies an error.  Returns the post-state and the error notifications
emitted. -/
def initializeSDK (st : SDKState) (outcome : FetchOutcome) : SDKState × List String :=
  let st1 : SDKState := { st with candles := [], error := none }
  match fetchHistoryCandles outcome with
  | .ok cs => ({ st1 with candles := cs }, [])
  | .error e => ({ st1 with error := some e }, [e])

/-! ### Codec lemmas -/

theorem length_u32le (n : Nat) : (u32le n).length = 4 := rfl

theorem length_u64le (n : Nat) : (u64le n).length = 8 := rfl

theorem length_i64le (z : Int) : (i64le z).length = 8 := rfl

theorem length_encodeWireCandle (c : WireCandle) :
    (encodeWireCandle c).length = 56 := by
  simp only [encodeWireCandle, List.length_append, length_u64le, length_i64le]

theorem leNat_u32le (n : Nat) : leNat (u32le n) = n % 2 ^ 32 := by
  simp only [u32le, leNat]
  omega

theorem leNat_u64le (n : Nat) : leNat (u64le n) = n % 2 ^ 64 := by
  simp only [u64le, leNat]
  omega

theorem leInt64_i64le (z : Int) (h₁ : -(2 ^ 63) ≤ z) (h₂ : z < 2 ^ 63) :
    leInt64 (i64le z) = z := by
  have hmod : (z % (2 ^ 64 : Int)).toNat % 2 ^ 64 = (z % (2 ^ 64 : Int)).toNat := by
    omega
  simp only [i64le, leInt64, leNat_u64le, hmod]
  omega

theorem take_u64le_append (n : Nat) (rest : List Nat) :
    (u64le n ++ rest).take 8 = u64le n :=
  List.take_left' (length_u64le n)

theorem drop_u64le_append (n : Nat) (rest : List Nat) :
    (u64le n ++ rest).drop 8 = rest :=
  List.drop_left' (length_u64le n)

theorem take_i64le_append (z : Int) (rest : List Nat) :
    (i64le z ++ rest).take 8 = i64le z :=
  List.take_left' (length_i64le z)

theorem drop_i64le_append (z : Int) (rest : List Nat) :
    (i64le z ++ rest).drop 8 = rest :=
  List.drop_left' (length_i64le z)

theorem readWireCandle_encode (c : WireCandle) (rest : List Nat)
    (hc : wfWireCandle c) :
    readWireCandle (encodeWireCandle c ++ rest) = c := by
  obtain ⟨ht₁, ht₂, ho, hcl, hh, hl, hvi, hvo⟩ := hc
  simp only [encodeWireCandle, List.append_assoc, readWireCandle,
    take_i64le_append, drop_i64le_append, take_u64le_append, drop_u64le_append,
    leInt64_i64le c.Timestamp ht₁ ht₂, leNat_u64le]
  rw [Nat.mod_eq_of_lt ho, Nat.mod_eq_of_lt hcl, Nat.mod_eq_of_lt hh,
    Nat.mod_eq_of_lt hl, Nat.mod_eq_of_lt hvi, Nat.mod_eq_of_lt hvo]

theorem drop_encodeWireCandle (c : WireCandle) (rest : List Nat) :
    (encodeWireCandle c ++ rest).drop 56 = rest :=
  List.drop_left' (length_encodeWireCandle c)

theorem readCandles_encode (cs : List WireCandle) (rest : List Nat)
    (h : ∀ c ∈ cs, wfWireCandle c) :
    readCandles cs.length ((cs.map encodeWireCandle).flatten ++ rest) = cs := by
  induction cs generalizing rest with
  | nil => rfl
  | cons c cs ih =>
    simp only [List.map_cons, List.flatten_cons, List.length_cons, readCandles,
      List.append_assoc]
    rw [readWireCandle_encode c _ (h c (.head _)),
      drop_encodeWireCandle c _, ih rest (fun x hx => h x (.tail _ hx))]

theorem length_flatten_encode (cs : List WireCandle) :
    ((cs.map encodeWireCandle).flatten).length = cs.length * 56 := by
  induction cs with
  | nil => rfl
  | cons c cs ih =>
    simp only [List.map_cons, List.flatten_cons, List.length_append,
      length_encodeWireCandle, ih, List.length_cons]
    ring

theorem deserializeCandleData_createMockBinaryData (cs : List WireCandle)
    (h32 : cs.length < 2 ^ 32) (hwf : ∀ c ∈ cs, wfWireCandle c) :
    deserializeCandleData (createMockBinaryData cs) = .ok cs := by
  have hlen : (createMockBinaryData cs).length = 4 + cs.length * 64 := by
    simp only [createMockBinaryData, List.length_append, length_u32le,
      length_flatten_encode, List.length_replicate]
    ring
  have htake : (createMockBinaryData cs).take 4 = u32le cs.length :=
    List.take_left' (length_u32le _)
  have hdrop : (createMockBinaryData cs).drop 4 =
      (cs.map encodeWireCandle).flatten ++ List.replicate (8 * cs.length) 0 :=
    List.drop_left' (length_u32le _)
  simp only [deserializeCandleData, hlen, htake, hdrop, leNat_u32le,
    Nat.mod_eq_of_lt h32, readCandles_encode cs _ hwf]
  simp

theorem deserializeRealTimeTradeData_createMockTradeData (t : Int) (u a : Nat)
    (ht₁ : -(2 ^ 63) ≤ t) (ht₂ : t < 2 ^ 63) (hu : u < 2 ^ 64) (ha : a < 2 ^ 64) :
    deserializeRealTimeTradeData (createMockTradeData t u a) =
      .ok { TradeTime := t, USD := f64val u, Amount := f64val a,
            Price := jsDiv (f64val u) (f64val a) } := by
  have hlen : (createMockTradeData t u a).length = 24 := by
    simp only [createMockTradeData, List.length_append, length_u64le, length_i64le]
  have htake : (createMockTradeData t u a).take 8 = i64le t :=
    List.take_left' (length_i64le t)
  have hdrop : (createMockTradeData t u a).drop 8 = u64le u ++ u64le a :=
    List.drop_left' (length_i64le t)
  have htake8 : (u64le a).take 8 = u64le a := by
    simp [length_u64le]
  simp only [deserializeRealTimeTradeData, hlen, htake, hdrop,
    take_u64le_append, drop_u64le_append, htake8, leNat_u64le,
    Nat.mod_eq_of_lt hu, Nat.mod_eq_of_lt ha, leInt64_i64le t ht₁ ht₂]
  simp

/-- Division by a JavaScript zero (`+0` or `-0`) always yields a
non-finite value: NaN when the dividend is itself a zero or NaN, an
infinity otherwise. -/
theorem jsDiv_isZero_nonFinite (x z : F64) (hz : z.isZero = true) :
    (jsDiv x z).nonFinite = true := by
  cases z with
  | fin q =>
    have hq : q = 0 := by simpa [F64.isZero] using hz
    subst hq
    cases x with
    | fin a => simp only [jsDiv, if_pos rfl]; split_ifs <;> rfl
    | negZero => simp [jsDiv, F64.nonFinite]
    | inf => simp [jsDiv, F64.nonFinite]
    | negInf => simp [jsDiv, F64.nonFinite]
    | nan => rfl
  | negZero =>
    cases x with
    | fin a => simp only [jsDiv]; split_ifs <;> rfl
    | negZero => rfl
    | inf => rfl
    | negInf => rfl
    | nan => rfl
  | inf => simp [F64.isZero] at hz
  | negInf => simp [F64.isZero] at hz
  | nan => simp [F64.isZero] at hz

end CryptoChart

namespace CryptoChart

/-- C3: decoding the output of `createMockBinaryData` yields the original
sequence, for every
candle sequence whose count fits the 4-byte header and whose fields fit
their wire slots; and the 24-byte trade record round-trips likewise — the
decoder recovers exactly the encoded tradeTime and the two amounts (with
`Price` derived as their quotient, never transmitted). -/
theorem codec_roundTrip :
    (∀ cs : List WireCandle, cs.length < 2 ^ 32 → (∀ c ∈ cs, wfWireCandle c) →
      deserializeCandleData (createMockBinaryData cs) = .ok cs) ∧
    (∀ (t : Int) (u a : Nat), -(2 ^ 63) ≤ t → t < 2 ^ 63 → u < 2 ^ 64 → a < 2 ^ 64 →
      deserializeRealTimeTradeData (createMockTradeData t u a) =
        .ok { TradeTime := t, USD := f64val u, Amount := f64val a,
              Price := jsDiv (f64val u) (f64val a) }) :=
  ⟨deserializeCandleData_createMockBinaryData,
   deserializeRealTimeTradeData_createMockTradeData⟩

/-- C3 witness: the round-trip theorem applied to a concrete two-candle
batch and a concrete trade record. -/
theorem codec_roundTrip_witness :
    deserializeCandleData (createMockBinaryData
      [{ Timestamp := 60, OpenPrice := 10, ClosePrice := 11, HighPrice := 12,
         LowPrice := 9, VolumeIn := 100, VolumeOut := 7 },
       { Timestamp := 120, OpenPrice := 11, ClosePrice := 13, HighPrice := 14,
         LowPrice := 10, VolumeIn := 50, VolumeOut := 3 }]) =
      .ok [{ Timestamp := 60, OpenPrice := 10, ClosePrice := 11, HighPrice := 12,
             LowPrice := 9, VolumeIn := 100, VolumeOut := 7 },
           { Timestamp := 120, OpenPrice := 11, ClosePrice := 13, HighPrice := 14,
             LowPrice := 10, VolumeIn := 50, VolumeOut := 3 }] ∧
    deserializeRealTimeTradeData (createMockTradeData 120 4607182418800017408 4611686018427387904) =
      .ok { TradeTime := 120, USD := f64val 4607182418800017408,
            Amount := f64val 4611686018427387904,
            Price := jsDiv (f64val 4607182418800017408) (f64val 4611686018427387904) } :=
  ⟨codec_roundTrip.1 _ (by decide) (by decide),
   codec_roundTrip.2 120 4607182418800017408 4611686018427387904
     (by decide) (by decide) (by decide) (by decide)⟩

/-- C5: for every byte sequence of length at least 4,
`deserializeCandleData` throws the malformed-payload (`Invalid data size`)
error exactly when the total length differs from `4 + count*64`, `count`
being the little-endian value of the first 4 bytes. -/
theorem deserializeCandleData_malformed_iff (data : List Nat)
    (h4 : 4 ≤ data.length) (_hbytes : ∀ b ∈ data, b < 256) :
    isErr (deserializeCandleData data) = true ↔
      data.length ≠ 4 + leNat (data.take 4) * 64 := by
  simp only [deserializeCandleData]
  rw [if_neg (by omega)]
  by_cases h : data.length = 4 + leNat (data.take 4) * 64
  · simp [h, isErr]
  · simp [h, isErr]

/-- C5 witness: a 28-byte buffer whose count field is 1 (expected size
`4 + 1*64 = 68`) is rejected as malformed. -/
theorem deserializeCandleData_malformed_witness :
    isErr (deserializeCandleData (u32le 1 ++ List.replicate 24 0)) = true :=
  (deserializeCandleData_malformed_iff (u32le 1 ++ List.replicate 24 0)
    (by decide) (by decide)).mpr (by decide)

/-- C4 counterexample: the all-zero 24-byte payload has a baseAmount
field that decodes to `+0`, yet `deserializeRealTimeTradeData` returns a
trade value (with `Price = 0/0 = NaN`) instead of failing with an error. -/
theorem deserializeTrade_zeroAmount_no_error :
    deserializeRealTimeTradeData (List.replicate 24 0) =
      .ok { TradeTime := 0, USD := .fin 0, Amount := .fin 0, Price := .nan } ∧
    isErr (deserializeRealTimeTradeData (List.replicate 24 0)) = false :=
  ⟨rfl, rfl⟩

/-- C4 amended: every 24-byte trade payload decodes to a trade value —
the decoder never fails on a correctly sized payload — and when the
baseAmount field decodes to a zero the derived `Price` is the non-finite
IEEE sentinel (an infinity or NaN) rather than an error. -/
theorem deserializeTrade_total_zeroAmount_nonFinite (data : List Nat)
    (h : data.length = 24) :
    isErr (deserializeRealTimeTradeData data) = false ∧
    ∀ t, deserializeRealTimeTradeData data = .ok t →
      t.Amount.isZero = true → t.Price.nonFinite = true := by
  simp only [deserializeRealTimeTradeData, h]
  norm_num [isErr]
  intro hz
  exact jsDiv_isZero_nonFinite _ _ hz

/-- C4 amended witness: the theorem applied to the all-zero 24-byte
payload. -/
theorem deserializeTrade_total_witness :
    isErr (deserializeRealTimeTradeData (List.replicate 24 0)) = false ∧
    F64.nonFinite .nan = true := by
  have h := deserializeTrade_total_zeroAmount_nonFinite (List.replicate 24 0) (by decide)
  exact ⟨h.1, h.2 { TradeTime := 0, USD := .fin 0, Amount := .fin 0, Price := .nan }
    rfl rfl⟩

/-! ### Candle merge theorems -/

/-- The in-window branch of `handleRealTimeTrade` spelled out: with
`0 ≤ diff ≤ 120`, the last candle is replaced in place by the update and
nothing else changes. -/
theorem handleRealTimeTrade_inWindow (candles : List Candle) (last : Candle)
    (trade : RealTimeTradeQ) (hlast : candles.getLast? = some last)
    (h0 : 0 ≤ trade.TradeTime.fdiv 60 * 60 - last.Timestamp)
    (h120 : trade.TradeTime.fdiv 60 * 60 - last.Timestamp ≤ 120) :
    handleRealTimeTrade candles trade =
      candles.dropLast ++
        [{ last with
            ClosePrice := trade.Price,
            HighPrice := max last.HighPrice trade.Price,
            LowPrice := min last.LowPrice trade.Price,
            VolumeIn := last.VolumeIn + trade.USD,
            VolumeOut := last.VolumeOut + trade.Amount }] := by
  unfold handleRealTimeTrade
  rw [hlast]
  exact if_pos ⟨h0, h120⟩

/-- C1: for every non-empty series, a trade whose minute bucket is
between 0 and 120 seconds (inclusive) past the last candle's timestamp
updates the last candle in place — close becomes the trade price, high
and low absorb it, the volumes grow by the trade amounts — and leaves
every other candle untouched. -/
theorem handleRealTimeTrade_inWindow_updates_last (candles : List Candle)
    (last : Candle) (trade : RealTimeTradeQ)
    (hlast : candles.getLast? = some last)
    (h0 : 0 ≤ trade.TradeTime.fdiv 60 * 60 - last.Timestamp)
    (h120 : trade.TradeTime.fdiv 60 * 60 - last.Timestamp ≤ 120) :
    handleRealTimeTrade candles trade =
      candles.dropLast ++
        [{ OpenPrice := last.OpenPrice,
           ClosePrice := trade.Price,
           HighPrice := max last.HighPrice trade.Price,
           LowPrice := min last.LowPrice trade.Price,
           VolumeIn := last.VolumeIn + trade.USD,
           VolumeOut := last.VolumeOut + trade.Amount,
           Timestamp := last.Timestamp }] :=
  handleRealTimeTrade_inWindow candles last trade hlast h0 h120

/-- C1 witness: one candle at timestamp 60 with close 10 and high 11; a
trade at bucket 120 (diff 60) with price 12 leaves close 12 and
high `max 11 12 = 12`. -/
theorem handleRealTimeTrade_inWindow_witness :
    handleRealTimeTrade
        [{ OpenPrice := 10, ClosePrice := 10, HighPrice := 11, LowPrice := 9,
           VolumeIn := 100, VolumeOut := 7, Timestamp := 60 }]
        { TradeTime := 120, USD := 24, Amount := 2, Price := 12 } =
      [{ OpenPrice := 10, ClosePrice := 12, HighPrice := 12, LowPrice := 9,
         VolumeIn := 124, VolumeOut := 9, Timestamp := 60 }] := by
  rw [handleRealTimeTrade_inWindow_updates_last
    [{ OpenPrice := 10, ClosePrice := 10, HighPrice := 11, LowPrice := 9,
       VolumeIn := 100, VolumeOut := 7, Timestamp := 60 }]
    { OpenPrice := 10, ClosePrice := 10, HighPrice := 11, LowPrice := 9,
      VolumeIn := 100, VolumeOut := 7, Timestamp := 60 }
    { TradeTime := 120, USD := 24, Amount := 2, Price := 12 }
    rfl (by decide) (by decide)]
  norm_num [max_def, min_def]

/-- C2 counterexample: a state whose last candle already violates the
OHLC invariant (open 100, high 1).  An in-window trade (diff 0, price 2)
yields a last candle with high `max 1 2 = 2`, still strictly below
`max(open, close) = 100` — so the claim fails without a precondition on
the pre-state. -/
theorem merge_invariant_counterexample :
    handleRealTimeTrade
        [{ OpenPrice := 100, ClosePrice := 1, HighPrice := 1, LowPrice := 1,
           VolumeIn := 0, VolumeOut := 0, Timestamp := 60 }]
        { TradeTime := 60, USD := 2, Amount := 1, Price := 2 } =
      [{ OpenPrice := 100, ClosePrice := 2, HighPrice := 2, LowPrice := 1,
         VolumeIn := 2, VolumeOut := 1, Timestamp := 60 }] ∧
    ¬((100 : ℚ) ≤ 2) := by
  constructor
  · rw [handleRealTimeTrade_inWindow
      [{ OpenPrice := 100, ClosePrice := 1, HighPrice := 1, LowPrice := 1,
         VolumeIn := 0, VolumeOut := 0, Timestamp := 60 }]
      { OpenPrice := 100, ClosePrice := 1, HighPrice := 1, LowPrice := 1,
        VolumeIn := 0, VolumeOut := 0, Timestamp := 60 }
      { TradeTime := 60, USD := 2, Amount := 1, Price := 2 }
      rfl (by decide) (by decide)]
    norm_num [max_def, min_def]
  · decide

/-- C2 amended: provided the last candle satisfies the OHLC invariant
before the merge, the in-window merge preserves it: the updated last
candle again has `high ≥ max(open, close)` and `low ≤ min(open, close)`. -/
theorem merge_preserves_ohlc_invariant (candles : List Candle) (last : Candle)
    (trade : RealTimeTradeQ) (hlast : candles.getLast? = some last)
    (h0 : 0 ≤ trade.TradeTime.fdiv 60 * 60 - last.Timestamp)
    (h120 : trade.TradeTime.fdiv 60 * 60 - last.Timestamp ≤ 120)
    (hhi : max last.OpenPrice last.ClosePrice ≤ last.HighPrice)
    (hlo : last.LowPrice ≤ min last.OpenPrice last.ClosePrice) :
    max ((handleRealTimeTrade candles trade).getLastD default).OpenPrice
        ((handleRealTimeTrade candles trade).getLastD default).ClosePrice ≤
      ((handleRealTimeTrade candles trade).getLastD default).HighPrice ∧
    ((handleRealTimeTrade candles trade).getLastD default).LowPrice ≤
      min ((handleRealTimeTrade candles trade).getLastD default).OpenPrice
        ((handleRealTimeTrade candles trade).getLastD default).ClosePrice := by
  rw [handleRealTimeTrade_inWindow candles last trade hlast h0 h120]
  rw [List.getLastD_eq_getLast?, List.getLast?_concat]
  constructor
  · exact max_le
      (le_trans (le_trans (le_max_left _ _) hhi) (le_max_left _ _))
      (le_max_right _ _)
  · exact le_min
      (le_trans (min_le_left _ _) (le_trans hlo (min_le_left _ _)))
      (min_le_right _ _)

/-- C2 amended witness: the preservation theorem at a concrete valid
candle and in-window trade. -/
theorem merge_preserves_ohlc_invariant_witness :
    max ((handleRealTimeTrade
        [{ OpenPrice := 10, ClosePrice := 10, HighPrice := 11, LowPrice := 9,
           VolumeIn := 100, VolumeOut := 7, Timestamp := 60 }]
        { TradeTime := 130, USD := 24, Amount := 2, Price := 12 }).getLastD
          default).OpenPrice
      ((handleRealTimeTrade
        [{ OpenPrice := 10, ClosePrice := 10, HighPrice := 11, LowPrice := 9,
           VolumeIn := 100, VolumeOut := 7, Timestamp := 60 }]
        { TradeTime := 130, USD := 24, Amount := 2, Price := 12 }).getLastD
          default).ClosePrice ≤
      ((handleRealTimeTrade
        [{ OpenPrice := 10, ClosePrice := 10, HighPrice := 11, LowPrice := 9,
           VolumeIn := 100, VolumeOut := 7, Timestamp := 60 }]
        { TradeTime := 130, USD := 24, Amount := 2, Price := 12 }).getLastD
          default).HighPrice :=
  (merge_preserves_ohlc_invariant
    [{ OpenPrice := 10, ClosePrice := 10, HighPrice := 11, LowPrice := 9,
       VolumeIn := 100, VolumeOut := 7, Timestamp := 60 }]
    { OpenPrice := 10, ClosePrice := 10, HighPrice := 11, LowPrice := 9,
      VolumeIn := 100, VolumeOut := 7, Timestamp := 60 }
    { TradeTime := 130, USD := 24, Amount := 2, Price := 12 }
    rfl (by decide) (by decide) (by norm_num [max_le_iff])
    (by norm_num [le_min_iff])).1

/-- C6: for every non-empty series, a trade whose bucket lies strictly
before the last candle's timestamp prunes the series to exactly the
candles with timestamp at least `bucket - 3600`, preserving order and
touching nothing else. -/
theorem handleRealTimeTrade_oldTrade_prunes (candles : List Candle)
    (last : Candle) (trade : RealTimeTradeQ)
    (hlast : candles.getLast? = some last)
    (hneg : trade.TradeTime.fdiv 60 * 60 - last.Timestamp < 0) :
    handleRealTimeTrade candles trade =
      candles.filter
        (fun c => decide (trade.TradeTime.fdiv 60 * 60 - 3600 ≤ c.Timestamp)) := by
  unfold handleRealTimeTrade
  rw [hlast]
  dsimp only
  rw [if_neg (by omega), if_pos hneg]

/-- C6 witness: candles at timestamps 60, 120, 180 and an old trade
(bucket 0, diff −180): the cutoff `0 − 3600` spares every candle and the
series is unchanged. -/
theorem handleRealTimeTrade_oldTrade_witness :
    handleRealTimeTrade
        [{ OpenPrice := 1, ClosePrice := 1, HighPrice := 1, LowPrice := 1,
           VolumeIn := 1, VolumeOut := 1, Timestamp := 60 },
         { OpenPrice := 2, ClosePrice := 2, HighPrice := 2, LowPrice := 2,
           VolumeIn := 2, VolumeOut := 2, Timestamp := 120 },
         { OpenPrice := 3, ClosePrice := 3, HighPrice := 3, LowPrice := 3,
           VolumeIn := 3, VolumeOut := 3, Timestamp := 180 }]
        { TradeTime := 10, USD := 1, Amount := 1, Price := 1 } =
      [{ OpenPrice := 1, ClosePrice := 1, HighPrice := 1, LowPrice := 1,
         VolumeIn := 1, VolumeOut := 1, Timestamp := 60 },
       { OpenPrice := 2, ClosePrice := 2, HighPrice := 2, LowPrice := 2,
         VolumeIn := 2, VolumeOut := 2, Timestamp := 120 },
       { OpenPrice := 3, ClosePrice := 3, HighPrice := 3, LowPrice := 3,
         VolumeIn := 3, VolumeOut := 3, Timestamp := 180 }] := by
  rw [handleRealTimeTrade_oldTrade_prunes
    [{ OpenPrice := 1, ClosePrice := 1, HighPrice := 1, LowPrice := 1,
       VolumeIn := 1, VolumeOut := 1, Timestamp := 60 },
     { OpenPrice := 2, ClosePrice := 2, HighPrice := 2, LowPrice := 2,
       VolumeIn := 2, VolumeOut := 2, Timestamp := 120 },
     { OpenPrice := 3, ClosePrice := 3, HighPrice := 3, LowPrice := 3,
       VolumeIn := 3, VolumeOut := 3, Timestamp := 180 }]
    { OpenPrice := 3, ClosePrice := 3, HighPrice := 3, LowPrice := 3,
      VolumeIn := 3, VolumeOut := 3, Timestamp := 180 }
    { TradeTime := 10, USD := 1, Amount := 1, Price := 1 }
    rfl (by decide)]
  decide

/-! ### Upsert / prune theorems -/

theorem length_enforceMaxCandles (candles : List Candle) (effectiveMax : Nat)
    (h : 0 < effectiveMax) :
    (enforceMaxCandles candles effectiveMax).length ≤ effectiveMax := by
  unfold enforceMaxCandles
  split
  · rw [List.length_drop]
    omega
  · omega

/-- C7: after every poll-sourced upsert — replacement or insertion — the
series length is at most the effective `maxCandles` (the configured value,
or 1000 when the config is absent/zero) and every retained candle's
timestamp is at least `now − 24h`; both prune steps run on every call. -/
theorem fetchLatestCandle_bounds (candles : List Candle) (newCandle : Candle)
    (maxCandles : Nat) (now : Int) :
    (fetchLatestCandle candles newCandle maxCandles now).length ≤
      (if maxCandles = 0 then 1000 else maxCandles) ∧
    (fetchLatestCandle candles newCandle maxCandles now).all
      (fun c => decide (now - 86400 ≤ c.Timestamp)) = true := by
  constructor
  · calc (fetchLatestCandle candles newCandle maxCandles now).length
        ≤ (enforceMaxCandles (upsertCandle candles newCandle)
            (if maxCandles = 0 then 1000 else maxCandles)).length :=
          List.length_filter_le _ _
      _ ≤ (if maxCandles = 0 then 1000 else maxCandles) :=
          length_enforceMaxCandles _ _ (by split <;> omega)
  · rw [List.all_eq_true]
    intro c hc
    exact (List.mem_filter.mp hc).2

/-! ### Reconnect theorems -/

/-- C8 counterexample: with `maxReconnectAttempts = 5` and the default
initial delay, the 5th consecutive connection failure still schedules a
retry timer (the 5th reconnect attempt, at the 16 s backoff) and no
fatal error has been reported after 5 failures. -/
theorem reconnect_fifth_failure_schedules :
    reconnectRun 5 (freshWSState 5 1000) =
      [.scheduleRetry 1000, .scheduleRetry 2000, .scheduleRetry 4000,
       .scheduleRetry 8000, .scheduleRetry 16000] ∧
    ((reconnectRun 5 (freshWSState 5 1000)).filter isReportError).length = 0 :=
  ⟨rfl, rfl⟩

/-- C8 amended: exhaustion happens one failure later than the claim
states — the machine halts when the 5th reconnect attempt fails, i.e. on
the 6th consecutive connection failure: that run schedules exactly the 5
retries, ends with the fatal error reported exactly once, and schedules
no timer after it. -/
theorem reconnect_halts_after_sixth_failure :
    reconnectRun 6 (freshWSState 5 1000) =
      [.scheduleRetry 1000, .scheduleRetry 2000, .scheduleRetry 4000,
       .scheduleRetry 8000, .scheduleRetry 16000,
       .reportError "Failed to reconnect after maximum attempts"] ∧
    ((reconnectRun 6 (freshWSState 5 1000)).filter isReportError).length = 1 :=
  ⟨rfl, rfl⟩

/-! ### Facade initialization theorems -/

/-- C9 counterexample: a facade holding one previously loaded candle.
When the history fetch fails, `initializeSDK` leaves an empty series —
the old candle was cleared up front, not left intact — and emits no error
notification, because `fetchHistoryCandles` swallowed the failure into an
empty list. -/
theorem initializeSDK_fetchFailure_counterexample :
    initializeSDK
        { candles := [{ OpenPrice := 10, ClosePrice := 10, HighPrice := 11,
                        LowPrice := 9, VolumeIn := 100, VolumeOut := 7,
                        Timestamp := 60 }],
          error := none }
        (.failure "HTTP 500") =
      ({ candles := [], error := none }, []) ∧
    ([{ OpenPrice := 10, ClosePrice := 10, HighPrice := 11, LowPrice := 9,
        VolumeIn := 100, VolumeOut := 7, Timestamp := 60 }] : List Candle) ≠ [] :=
  ⟨rfl, by decide⟩

/-- C9 amended: on a failing history fetch the facade neither keeps the
old candles nor reports an error: for every prior state, `initializeSDK`
ends with an empty series, a clear error field, and no error
notification (the clearing happens before the fetch, and the collaborator
returns `[]` instead of throwing). -/
theorem initializeSDK_fetchFailure_silent_empty (st : SDKState) (msg : String) :
    initializeSDK st (.failure msg) = ({ candles := [], error := none }, []) :=
  rfl

/-! ### Subscription-ack theorems -/

/-- C10 counterexample: a structured subscribe ack carrying
`status:"error"` is handled exactly like a success — the subscription
identifier is set to the ack's id and the subscribed flag raised, with
the ordinary subscription callback fired and no rejection reported — the
state is not left cleared. -/
theorem handleTextMessage_errorAck_counterexample :
    handleTextMessage { subscribeId := none, isSubscribed := false }
        (.jsonSubscribed "abc123" (some .error)) =
      ({ subscribeId := some "abc123", isSubscribed := true },
       [.subscriptionCallback "abc123"]) ∧
    (handleTextMessage { subscribeId := none, isSubscribed := false }
        (.jsonSubscribed "abc123" (some .error))).1.isSubscribed = true :=
  ⟨rfl, rfl⟩

/-- C10 amended: `handleTextMessage` never inspects the ack's status
field: every structured subscribe ack with a non-empty id — whatever its
status, including `"error"` — sets the subscription state to that id and
fires the subscription callback; no rejection is reported and the state
is not cleared. -/
theorem handleTextMessage_ack_ignores_status (s : WSSubscriptionState)
    (sid : String) (status : Option AckStatus) (h : sid ≠ "") :
    handleTextMessage s (.jsonSubscribed sid status) =
      ({ subscribeId := some sid, isSubscribed := true },
       [.subscriptionCallback sid]) := by
  simp [handleTextMessage, h]

/-- C10 amended witness: the theorem at a fresh connection receiving an
error-status ack. -/
theorem handleTextMessage_ack_ignores_status_witness :
    handleTextMessage { subscribeId := none, isSubscribed := false }
        (.jsonSubscribed "x9" (some .error)) =
      ({ subscribeId := some "x9", isSubscribed := true },
       [.subscriptionCallback "x9"]) :=
  handleTextMessage_ack_ignores_status _ "x9" _ (by decide)

end CryptoChart
